import Mathlib

/-!
Shallow embedding of `src/sqlengine/sqlengine.py` (Kapparina/SQLEngine).

The repository wraps SQLAlchemy: it assembles a connection `URL` and hands it
to the library factory `create_engine`.  The wrapped library is modelled
abstractly: a `URL` is the record of the components the code passes to
`URL.create`, and an `Engine` is a handle carrying the `URL` it was created
from.  Query dictionaries are association lists with Python-dict insertion
semantics (`QueryDict.set`).  `str(Path(p).absolute())` depends on the process
working directory, so it is abstracted as a parameter `absFn : String → String`.

The class-level dictionary `AccessEngine.query`, which the constructor mutates
in place, is modelled as explicit state (`AccessClassState`) threaded through
`AccessEngine.init` and `build_engine`; every instance's `query` attribute
aliases the class dictionary, so an attribute read is a read of the current
class state (`AccessEngine.instanceQuery`).

Python `assert` failures are modelled as `Except.error (.assertionError msg)`.
-/

namespace SQLEngineRepo

/-- A Python `dict[str, str]` as an association list: keys are unique,
insertion order is preserved. -/
abbrev QueryDict := List (String × String)

/-- Python dict item assignment `d[k] = v`: update in place if the key is
present, otherwise append at the end. -/
def QueryDict.set (q : QueryDict) (k v : String) : QueryDict :=
  if q.any (fun kv => kv.1 == k) then
    q.map (fun kv => if kv.1 == k then (k, v) else kv)
  else
    q ++ [(k, v)]

/-- Python dict lookup `d.get(k)`. -/
def QueryDict.get (q : QueryDict) (k : String) : Option String :=
  (q.find? (fun kv => kv.1 == k)).map Prod.snd

/-- A SQLAlchemy connection URL, restricted to the components this repository
ever passes to `URL.create` (drivername, host, database, query).  `URL.create`
snapshots the query dictionary into an immutable copy, hence the by-value
`query` field. -/
structure URL where
  drivername : Option String
  host : Option String
  database : Option String
  query : Option QueryDict
deriving Repr, DecidableEq

/-- SQLAlchemy `URL.create` on the components this repository supplies. -/
def URL.create (drivername host database : Option String)
    (query : Option QueryDict) : URL :=
  ⟨drivername, host, database, query⟩

/-- The wrapped library's engine: a handle carrying the URL it was configured
with.  All runtime behaviour of a real engine lives in the wrapped library and
is outside the model; the claims only inspect the URL. -/
structure Engine where
  url : URL
deriving Repr, DecidableEq

/-- SQLAlchemy `create_engine(url=...)`: the library factory, modelled as
producing the engine handle for the given URL. -/
def create_engine (url : URL) : Engine :=
  ⟨url⟩

/-- The state of a `SQLEngine` instance after `SQLEngine.__init__`
(`sqlengine.py` lines 23-43): the four stored constructor arguments, the
assembled URL, and the engine obtained from the library factory. -/
structure SQLEngine where
  driver : Option String
  host : Option String
  database : Option String
  query : Option QueryDict
  url : URL
  engine : Engine
deriving Repr, DecidableEq

/-- `SQLEngine.__init__(driver, host, database, query)`: store the four
arguments, assemble the URL with `URL.create`, create the engine. -/
def SQLEngine.init (driver host database : Option String)
    (query : Option QueryDict) : SQLEngine :=
  let url := URL.create driver host database query
  { driver := driver
    host := host
    database := database
    query := query
    url := url
    engine := create_engine url }

/-- `SQLEngine.connect` (line 45-46): `return self.engine.connect()`.  The
wrapped library's `Engine.connect` is abstracted as an arbitrary function
`engineConnect` into an arbitrary connection type. -/
def SQLEngine.connect {Connection : Type} (engineConnect : Engine → Connection)
    (self : SQLEngine) : Connection :=
  engineConnect self.engine

/-- Class attribute `MSSQLEngine.driver` (line 65). -/
def MSSQLEngine.driver : String := "mssql+pyodbc"

/-- Class attribute `MSSQLEngine.query` (line 66). -/
def MSSQLEngine.query : QueryDict :=
  [("driver", "SQL Server Native Client 11.0")]

/-- `MSSQLEngine.__init__(host, database)` (lines 68-74): delegate to
`SQLEngine.__init__` with the class-level driver and preset query. -/
def MSSQLEngine.init (host database : Option String) : SQLEngine :=
  SQLEngine.init (some MSSQLEngine.driver) host database (some MSSQLEngine.query)

/-- Class attribute `AccessEngine.driver` (line 98). -/
def AccessEngine.driver : String := "access+pyodbc"

/-- The initial value of the class attribute `AccessEngine.query`
(lines 99-102), before any constructor has mutated it. -/
def AccessEngine.presetQuery : QueryDict :=
  [("driver", "Microsoft Access Driver (*.mdb, *.accdb)"),
   ("ExtendedAnsiSql", "1")]

/-- The mutable class-level dictionary `AccessEngine.query`, shared by the
class and all its instances, made explicit as threaded state. -/
structure AccessClassState where
  query : QueryDict
deriving Repr, DecidableEq

/-- The class state at module load time: `AccessEngine.query` holds exactly
the two preset entries. -/
def AccessClassState.startup : AccessClassState :=
  ⟨AccessEngine.presetQuery⟩

/-- Reading the `query` attribute of any `AccessEngine` instance: the
attribute is the very class dictionary object (the constructor item-assigns
into the class dict and then stores that same object on the instance), so the
read returns the current class state regardless of which instance is read and
when it was constructed. -/
def AccessEngine.instanceQuery (st : AccessClassState) : QueryDict :=
  st.query

/-- `AccessEngine.__init__(db_path)` (lines 104-111): item-assign
`self.query["DBQ"] = str(Path(db_path).absolute())` into the class dictionary,
then delegate to `SQLEngine.__init__` with `host=None`, `database=None` and
that dictionary.  Returns the mutated class state together with the
constructed instance. -/
def AccessEngine.init (absFn : String → String) (st : AccessClassState)
    (db_path : String) : AccessClassState × SQLEngine :=
  let q := QueryDict.set st.query "DBQ" (absFn db_path)
  (⟨q⟩, SQLEngine.init (some AccessEngine.driver) none none (some q))

/-- A Python exception surfaced by `build_engine`'s `assert` statements. -/
inductive BuildError where
  | assertionError (msg : String)
deriving Repr, DecidableEq

/-- `build_engine(driver, host, database, query, local_db_filepath)`
(lines 114-159).  The first `assert` demands a driver or a local db file path;
then exact string dispatch: `"mssql"` → `MSSQLEngine(host, database).engine`,
`"access"` → assert a file path, then `AccessEngine(db_path).engine`,
anything else → `SQLEngine(driver, host, database, query).engine` (whose
`try`/`except e: raise e` wrapper re-raises unchanged and is the identity).
The `AccessEngine` class state is threaded through and returned. -/
def build_engine (absFn : String → String) (st : AccessClassState)
    (driver host database : Option String := none)
    (query : Option QueryDict := none)
    (local_db_filepath : Option String := none) :
    Except BuildError (Engine × AccessClassState) :=
  if driver = none ∧ local_db_filepath = none then
    .error (.assertionError "Specify a driver or local database file path.")
  else if driver = some "mssql" then
    .ok ((MSSQLEngine.init host database).engine, st)
  else if driver = some "access" then
    match local_db_filepath with
    | none =>
        .error (.assertionError
          "Using Access you must specify a local database file path.")
    | some p =>
        let r := AccessEngine.init absFn st p
        .ok (r.2.engine, r.1)
  else
    .ok ((SQLEngine.init driver host database query).engine, st)

/-- The class states the `AccessEngine` class dictionary can actually be in:
the module-load state, or the state after some constructor has set `DBQ`. -/
def AccessClassState.reachable (st : AccessClassState) : Prop :=
  st = AccessClassState.startup ∨
    ∃ x, st = ⟨QueryDict.set AccessEngine.presetQuery "DBQ" x⟩

/-- C1: for every host and database, `build_engine` with driver exactly
`"mssql"` selects the MSSQL subclass: it returns the engine of
`MSSQLEngine(host, database)`, whose URL has drivername `"mssql+pyodbc"`, the
given host and database, and exactly the preset query
`{"driver": "SQL Server Native Client 11.0"}` (and the class state is
untouched). -/
theorem build_engine_mssql_spec (absFn : String → String)
    (st : AccessClassState) (host database : Option String)
    (query : Option QueryDict) (local_db_filepath : Option String) :
    build_engine absFn st (some "mssql") host database query local_db_filepath
      = .ok ((MSSQLEngine.init host database).engine, st)
    ∧ (MSSQLEngine.init host database).engine.url
      = ⟨some "mssql+pyodbc", host, database,
         some [("driver", "SQL Server Native Client 11.0")]⟩ :=
  ⟨rfl, rfl⟩

/-- C2: for every db_path, `build_engine` with driver exactly `"access"` and a
non-None local db file path returns the engine of an `AccessEngine` whose URL
has drivername `"access+pyodbc"`, no host and no database, and whose query
contains the two Access presets together with `DBQ` bound to the absolutised
string of the given path.  Stated for every reachable class state. -/
theorem build_engine_access_spec (absFn : String → String)
    (st : AccessClassState) (host database : Option String)
    (query : Option QueryDict) (p : String)
    (hst : AccessClassState.reachable st) :
    ∃ r, build_engine absFn st (some "access") host database query (some p)
        = .ok r
      ∧ r.1.url.drivername = some "access+pyodbc"
      ∧ r.1.url.host = none
      ∧ r.1.url.database = none
      ∧ ∃ qd, r.1.url.query = some qd
        ∧ QueryDict.get qd "driver"
            = some "Microsoft Access Driver (*.mdb, *.accdb)"
        ∧ QueryDict.get qd "ExtendedAnsiSql" = some "1"
        ∧ QueryDict.get qd "DBQ" = some (absFn p) := by
  rcases hst with h | ⟨x, h⟩ <;> subst h <;>
    exact ⟨_, rfl, rfl, rfl, rfl, _, rfl, rfl, rfl, rfl⟩

/-- Witness for C2 at the module-load state with `absFn = id` and path
`"db.accdb"`. -/
theorem build_engine_access_spec_witness :
    AccessClassState.reachable AccessClassState.startup
    ∧ ∃ r, build_engine id AccessClassState.startup (some "access") none none
          none (some "db.accdb") = .ok r
      ∧ r.1.url.drivername = some "access+pyodbc"
      ∧ r.1.url.host = none
      ∧ r.1.url.database = none
      ∧ ∃ qd, r.1.url.query = some qd
        ∧ QueryDict.get qd "driver"
            = some "Microsoft Access Driver (*.mdb, *.accdb)"
        ∧ QueryDict.get qd "ExtendedAnsiSql" = some "1"
        ∧ QueryDict.get qd "DBQ" = some (id "db.accdb") :=
  ⟨Or.inl rfl,
   build_engine_access_spec id AccessClassState.startup none none none
     "db.accdb" (Or.inl rfl)⟩

/-- C3: `SQLEngine.__init__` assembles a URL encoding exactly the four given
components, and the four instance attributes equal the constructor
arguments. -/
theorem sqlengine_init_spec (driver host database : Option String)
    (query : Option QueryDict) :
    (SQLEngine.init driver host database query).url.drivername = driver
    ∧ (SQLEngine.init driver host database query).url.host = host
    ∧ (SQLEngine.init driver host database query).url.database = database
    ∧ (SQLEngine.init driver host database query).url.query = query
    ∧ (SQLEngine.init driver host database query).driver = driver
    ∧ (SQLEngine.init driver host database query).host = host
    ∧ (SQLEngine.init driver host database query).database = database
    ∧ (SQLEngine.init driver host database query).query = query :=
  ⟨rfl, rfl, rfl, rfl, rfl, rfl, rfl, rfl⟩

/-- C4: for every driver string other than `"mssql"` and `"access"`,
`build_engine` returns exactly `create_engine` applied to `URL.create` of the
given driver, host, database and query, with the class state untouched. -/
theorem build_engine_generic_spec (absFn : String → String)
    (st : AccessClassState) (d : String) (host database : Option String)
    (query : Option QueryDict) (local_db_filepath : Option String)
    (hm : d ≠ "mssql") (ha : d ≠ "access") :
    build_engine absFn st (some d) host database query local_db_filepath
      = .ok (create_engine (URL.create (some d) host database query), st) := by
  unfold build_engine
  rw [if_neg (by simp), if_neg (by simp [hm]), if_neg (by simp [ha])]
  rfl

/-- Witness for C4 at driver `"sqlite"`. -/
theorem build_engine_generic_spec_witness :
    ("sqlite" ≠ "mssql") ∧ ("sqlite" ≠ "access")
    ∧ build_engine id AccessClassState.startup (some "sqlite") (some "h")
        (some "db") (some [("a", "b")]) none
      = .ok (create_engine
          (URL.create (some "sqlite") (some "h") (some "db")
            (some [("a", "b")])), AccessClassState.startup) :=
  ⟨by decide, by decide,
   build_engine_generic_spec id AccessClassState.startup "sqlite" (some "h")
     (some "db") (some [("a", "b")]) none (by decide) (by decide)⟩

/-- C5: dispatch is on exact string equality only: the case variants
`"MSSQL"` and `"Access"` are routed to the generic `SQLEngine` branch, whose
URL keeps the driver string verbatim and the caller's query (no presets). -/
theorem build_engine_exact_dispatch (absFn : String → String)
    (st : AccessClassState) (host database : Option String)
    (query : Option QueryDict) (local_db_filepath : Option String) :
    build_engine absFn st (some "MSSQL") host database query local_db_filepath
      = .ok (create_engine (URL.create (some "MSSQL") host database query), st)
    ∧ build_engine absFn st (some "Access") host database query
        local_db_filepath
      = .ok (create_engine (URL.create (some "Access") host database query),
             st) :=
  ⟨rfl, rfl⟩

/-- C6: `SQLEngine.connect` adds no behaviour of its own: it returns exactly
the wrapped library's `connect` applied to the stored engine, for every
instance and every library `connect` function. -/
theorem sqlengine_connect_delegates {Connection : Type}
    (engineConnect : Engine → Connection) (self : SQLEngine) :
    SQLEngine.connect engineConnect self = engineConnect self.engine :=
  rfl

/-- C7: `build_engine` fails with an `AssertionError` exactly when either both
driver and local_db_filepath are None, or the driver is `"access"` and
local_db_filepath is None; in every other case no assertion fires and an
engine is returned. -/
theorem build_engine_assertion_iff (absFn : String → String)
    (st : AccessClassState) (driver host database : Option String)
    (query : Option QueryDict) (local_db_filepath : Option String) :
    (∃ msg, build_engine absFn st driver host database query local_db_filepath
        = .error (.assertionError msg))
    ↔ ((driver = none ∧ local_db_filepath = none)
        ∨ (driver = some "access" ∧ local_db_filepath = none)) := by
  unfold build_engine
  by_cases h1 : driver = none ∧ local_db_filepath = none
  · simp [h1]
  · rw [if_neg h1]
    by_cases hm : driver = some "mssql"
    · simp [h1, hm]
    · rw [if_neg hm]
      by_cases ha : driver = some "access"
      · subst ha
        cases local_db_filepath <;> simp at h1 ⊢
      · rw [if_neg ha]
        simp [h1, ha]

/-- C8: with driver `"mssql"` or `"access"`, the caller-supplied query
argument is ignored (the result is the same for every query argument), and
the URL carries exactly the subclass presets, plus `DBQ` for access. -/
theorem build_engine_presets_only (absFn : String → String)
    (st : AccessClassState) (host database : Option String)
    (q : Option QueryDict) (p : String) (local_db_filepath : Option String) :
    (∀ q', build_engine absFn st (some "mssql") host database q
          local_db_filepath
        = build_engine absFn st (some "mssql") host database q'
          local_db_filepath)
    ∧ build_engine absFn st (some "mssql") host database q local_db_filepath
      = .ok (create_engine
          (URL.create (some "mssql+pyodbc") host database
            (some MSSQLEngine.query)), st)
    ∧ (∀ q', build_engine absFn st (some "access") host database q (some p)
        = build_engine absFn st (some "access") host database q' (some p))
    ∧ build_engine absFn AccessClassState.startup (some "access") host
        database q (some p)
      = .ok (create_engine
          (URL.create (some "access+pyodbc") none none
            (some (AccessEngine.presetQuery ++ [("DBQ", absFn p)]))),
          ⟨AccessEngine.presetQuery ++ [("DBQ", absFn p)]⟩) :=
  ⟨fun _ => rfl, rfl, fun _ => rfl, rfl⟩

/-- C9: the `AccessEngine` constructor mutates the class-level query
dictionary shared by all instances: after constructing with `p1` the class
dict's `DBQ` is the absolutised `p1`; after a further construction with `p2`
it is the absolutised `p2`, and reading the `query` attribute of any instance
(including the first one) through the aliased class dict yields that latest
value. -/
theorem access_engine_mutates_class_query (absFn : String → String)
    (p1 p2 : String) :
    QueryDict.get (AccessEngine.init absFn AccessClassState.startup p1).1.query
        "DBQ" = some (absFn p1)
    ∧ QueryDict.get
        (AccessEngine.init absFn
          (AccessEngine.init absFn AccessClassState.startup p1).1 p2).1.query
        "DBQ" = some (absFn p2)
    ∧ (∀ st, AccessEngine.instanceQuery st = st.query)
    ∧ QueryDict.get
        (AccessEngine.instanceQuery
          (AccessEngine.init absFn
            (AccessEngine.init absFn AccessClassState.startup p1).1 p2).1)
        "DBQ" = some (absFn p2) :=
  ⟨rfl, rfl, fun _ => rfl, rfl⟩

end SQLEngineRepo
